import Mathlib

/-!
Shallow embedding of the booking-capacity core of a multi-module booking
backend (pool, conference hall, hotel) together with proofs about its
capacity checks, status transitions and initialization routines.

Collections are modelled as Lean lists of records; each controller endpoint
becomes a pure function from the database state and the request to a pair of
the HTTP response and the new database state.  Dates are epoch milliseconds
as integers; JavaScript setHours(0,0,0,0) / setHours(23,59,59,999) become
startOfDay / endOfDay.  Statuses and enum fields are strings, exactly as in
the source.  Nondeterministic inputs of the source (current time, generated
booking and invoice numbers) are passed as explicit parameters.
-/

set_option maxHeartbeats 1000000

namespace LiberiaBooking

/-- JSON envelope of a controller response: HTTP status code, success flag
and human readable message. -/
structure ApiResponse where
  status : Nat
  success : Bool
  message : String
deriving Repr, DecidableEq

/-- Milliseconds in one day. -/
def msPerDay : Int := 86400000

/-- Midnight of the day containing instant t, as in date.setHours(0,0,0,0). -/
def startOfDay (t : Int) : Int := t - t % msPerDay

/-- Last millisecond of the day containing t, as in setHours(23,59,59,999). -/
def endOfDay (t : Int) : Int := startOfDay t + (msPerDay - 1)

/-- Replace the first element satisfying p by its image under f; models a
mongoose document save after findOne/findById on a unique key. -/
def updateFirstBy (p : α → Bool) (f : α → α) : List α → List α
  | [] => []
  | x :: xs => if p x then f x :: xs else x :: updateFirstBy p f xs

/-- Remove the first element satisfying p; models document.deleteOne. -/
def removeFirstBy (p : α → Bool) : List α → List α
  | [] => []
  | x :: xs => if p x then xs else x :: removeFirstBy p xs

/-! ## Pool module data model -/

/-- A pool booking document (mongoose model Pool). -/
structure Pool where
  id : Nat
  customerName : String
  email : String
  phone : String
  date : Int
  timeSlot : String
  passType : String
  persons : Nat
  amount : Int
  paymentStatus : String
  notes : String
  bookingNumber : String
  createdBy : Nat
deriving Repr, DecidableEq

/-- A pool time slot document (mongoose model TimeSlot). -/
structure TimeSlot where
  slotId : String
  label : String
  value : String
  startTime : String
  endTime : String
  maxCapacity : Int
  currentBookings : Int
  isActive : Bool
deriving Repr, DecidableEq

/-- A ticket price document (mongoose model TicketPrice). -/
structure TicketPrice where
  passType : String
  price : Int
  description : String
  maxPersons : Int
  isActive : Bool
deriving Repr, DecidableEq

/-- The collections touched by the pool controller. -/
structure PoolDb where
  bookings : List Pool
  timeSlots : List TimeSlot
  ticketPrices : List TicketPrice
deriving Repr, DecidableEq

/-- Request body of POST /api/pool/bookings. -/
structure CreatePoolReq where
  customerName : String
  email : String
  phone : String
  date : Int
  timeSlot : String
  passType : String
  persons : Nat
  paymentStatus : Option String
  notes : String
deriving Repr, DecidableEq

/-- Truthiness check of the required fields of a pool booking request. -/
def poolRequiredFieldsOk (r : CreatePoolReq) : Bool :=
  r.customerName != "" && r.email != "" && r.phone != "" &&
  r.timeSlot != "" && r.passType != "" && r.persons != 0

/-- Filter used for the capacity aggregation: bookings on the same calendar
day and time slot whose payment status is not cancelled. -/
def poolSameDaySlotActive (dayStart dayEnd : Int) (slotValue : String)
    (b : Pool) : Bool :=
  dayStart ≤ b.date && b.date ≤ dayEnd &&
  b.timeSlot == slotValue && b.paymentStatus != "cancelled"

/-- Sum of the persons fields of a list of pool bookings. -/
def sumPersons (l : List Pool) : Int :=
  (l.map (fun b => (b.persons : Int))).sum

/-- POST /api/pool/bookings (poolController.createBooking).  The generated
booking number and fresh document id are passed in as parameters. -/
def PoolController.createBooking (db : PoolDb) (req : CreatePoolReq)
    (userId newId : Nat) (bookingNumber : String) : ApiResponse × PoolDb :=
  if !poolRequiredFieldsOk req then
    (⟨400, false, "Please provide all required fields"⟩, db)
  else
    match db.timeSlots.find? (fun s => s.value == req.timeSlot) with
    | none => (⟨400, false, "Selected time slot is not available"⟩, db)
    | some slot =>
      if !slot.isActive then
        (⟨400, false, "Selected time slot is not available"⟩, db)
      else
        let selectedDate := startOfDay req.date
        let dayEnd := endOfDay req.date
        let existingBookings :=
          db.bookings.filter (poolSameDaySlotActive selectedDate dayEnd req.timeSlot)
        let totalBookedPersons := sumPersons existingBookings
        let availableSpots := slot.maxCapacity - totalBookedPersons
        if availableSpots < (req.persons : Int) then
          (⟨400, false, s!"Only {availableSpots} spots available in this slot"⟩, db)
        else
          match db.ticketPrices.find? (fun t => t.passType == req.passType && t.isActive) with
          | none => (⟨400, false, "Selected pass type is not available"⟩, db)
          | some ticket =>
            if (req.persons : Int) > ticket.maxPersons then
              let mp := ticket.maxPersons
              let pt := req.passType
              (⟨400, false, s!"Maximum {mp} persons allowed for {pt} pass"⟩, db)
            else
              let amount : Int :=
                if req.passType == "family" then ticket.price
                else ticket.price * (req.persons : Int)
              let booking : Pool :=
                { id := newId
                  customerName := req.customerName
                  email := req.email
                  phone := req.phone
                  date := selectedDate
                  timeSlot := req.timeSlot
                  passType := req.passType
                  persons := req.persons
                  amount := amount
                  paymentStatus := req.paymentStatus.getD "pending"
                  notes := req.notes
                  bookingNumber := bookingNumber
                  createdBy := userId }
              let timeSlots2 :=
                updateFirstBy (fun s => s.value == req.timeSlot)
                  (fun s => { s with currentBookings := totalBookedPersons + (req.persons : Int) })
                  db.timeSlots
              (⟨201, true, "Booking created successfully"⟩,
                { db with bookings := db.bookings ++ [booking], timeSlots := timeSlots2 })

/-- PUT /api/pool/bookings/:id/status (poolController.updatePaymentStatus). -/
def PoolController.updatePaymentStatus (db : PoolDb) (bookingId : Nat)
    (paymentStatus : String) : ApiResponse × PoolDb :=
  if !(paymentStatus == "paid" || paymentStatus == "pending" || paymentStatus == "cancelled") then
    (⟨400, false, "Invalid payment status"⟩, db)
  else
    match db.bookings.find? (fun b => b.id == bookingId) with
    | none => (⟨404, false, "Booking not found"⟩, db)
    | some booking =>
      if paymentStatus == "cancelled" && booking.paymentStatus != "cancelled" then
        let timeSlots2 :=
          if (db.timeSlots.find? (fun s => s.value == booking.timeSlot)).isSome then
            updateFirstBy (fun s => s.value == booking.timeSlot)
              (fun s => { s with currentBookings := max 0 (s.currentBookings - (booking.persons : Int)) })
              db.timeSlots
          else db.timeSlots
        (⟨200, true, "Payment status updated successfully"⟩,
          { db with
              bookings := updateFirstBy (fun b => b.id == bookingId)
                (fun b => { b with paymentStatus := paymentStatus }) db.bookings
              timeSlots := timeSlots2 })
      else if booking.paymentStatus == "cancelled" && paymentStatus != "cancelled" then
        match db.timeSlots.find? (fun s => s.value == booking.timeSlot) with
        | none =>
          (⟨200, true, "Payment status updated successfully"⟩,
            { db with
                bookings := updateFirstBy (fun b => b.id == bookingId)
                  (fun b => { b with paymentStatus := paymentStatus }) db.bookings })
        | some slot =>
          let selectedDate := startOfDay booking.date
          let dayEnd := endOfDay booking.date
          let existingBookings :=
            db.bookings.filter (fun b =>
              b.id != bookingId && poolSameDaySlotActive selectedDate dayEnd booking.timeSlot b)
          let totalBookedPersons := sumPersons existingBookings
          let availableSpots := slot.maxCapacity - totalBookedPersons
          if availableSpots < (booking.persons : Int) then
            (⟨400, false, s!"Slot is now full. Only {availableSpots} spots available"⟩, db)
          else
            let timeSlots2 :=
              updateFirstBy (fun s => s.value == booking.timeSlot)
                (fun s => { s with currentBookings := totalBookedPersons + (booking.persons : Int) })
                db.timeSlots
            (⟨200, true, "Payment status updated successfully"⟩,
              { db with
                  bookings := updateFirstBy (fun b => b.id == bookingId)
                    (fun b => { b with paymentStatus := paymentStatus }) db.bookings
                  timeSlots := timeSlots2 })
      else
        (⟨200, true, "Payment status updated successfully"⟩,
          { db with
              bookings := updateFirstBy (fun b => b.id == bookingId)
                (fun b => { b with paymentStatus := paymentStatus }) db.bookings })

/-- DELETE /api/pool/bookings/:id (poolController.deleteBooking). -/
def PoolController.deleteBooking (db : PoolDb) (bookingId : Nat) :
    ApiResponse × PoolDb :=
  match db.bookings.find? (fun b => b.id == bookingId) with
  | none => (⟨404, false, "Booking not found"⟩, db)
  | some booking =>
    let timeSlots2 :=
      if (db.timeSlots.find? (fun s => s.value == booking.timeSlot)).isSome then
        updateFirstBy (fun s => s.value == booking.timeSlot)
          (fun s => { s with currentBookings := max 0 (s.currentBookings - (booking.persons : Int)) })
          db.timeSlots
      else db.timeSlots
    (⟨200, true, "Booking deleted successfully"⟩,
      { db with
          bookings := removeFirstBy (fun b => b.id == bookingId) db.bookings
          timeSlots := timeSlots2 })

/-! ## Conference module data model -/

/-- A conference booking document (mongoose model Conference). -/
structure Conference where
  id : Nat
  eventName : String
  clientName : String
  company : String
  email : String
  phone : String
  hallType : String
  startDate : Int
  endDate : Int
  startTime : String
  endTime : String
  eventType : String
  attendees : Int
  amount : Int
  advancePaid : Int
  paymentStatus : String
  bookingStatus : String
  bookingNumber : String
  invoiceNumber : String
  notes : String
  createdBy : Nat
  approvedBy : Option Nat
  approvedAt : Option Int
deriving Repr, DecidableEq

/-- A conference hall document (mongoose model ConferenceHall). -/
structure ConferenceHall where
  name : String
  value : String
  capacity : Int
  dailyRate : Int
  isActive : Bool
deriving Repr, DecidableEq

/-- The collections touched by the conference controller. -/
structure ConferenceDb where
  bookings : List Conference
  halls : List ConferenceHall
deriving Repr, DecidableEq

/-- Booking statuses treated as blocking at conference booking creation. -/
def conferenceActiveForCreate (s : String) : Bool :=
  s == "approved" || s == "confirmed" || s == "pending"

/-- Overlap filter of the conference creation check: same hall, window
intersecting by startDate LTE requested end AND endDate GTE requested start,
and a blocking booking status. -/
def conferenceCreateOverlapFilter (hallType : String) (reqStart reqEnd : Int)
    (b : Conference) : Bool :=
  b.hallType == hallType && b.startDate ≤ reqEnd && b.endDate ≥ reqStart &&
  conferenceActiveForCreate b.bookingStatus

/-- Request body of POST /api/conference/bookings.  Dates are parsed
instants; bookingStatus mirrors the optional req.body.bookingStatus. -/
structure CreateConferenceReq where
  eventName : String
  clientName : String
  company : String
  email : String
  phone : String
  hallType : String
  startDate : Int
  endDate : Int
  startTime : String
  endTime : String
  eventType : String
  attendees : Int
  amount : Int
  advancePaid : Int
  bookingStatus : Option String
  notes : String
deriving Repr, DecidableEq

/-- Truthiness check of the required fields of a conference booking request. -/
def conferenceRequiredFieldsOk (r : CreateConferenceReq) : Bool :=
  r.eventName != "" && r.clientName != "" && r.email != "" && r.phone != "" &&
  r.hallType != "" && r.startTime != "" && r.endTime != "" && r.eventType != ""

/-- POST /api/conference/bookings (conferenceController.createBooking).  The
generated booking number, fresh id and fresh invoice number are parameters. -/
def ConferenceController.createBooking (db : ConferenceDb)
    (req : CreateConferenceReq) (userId newId : Nat)
    (bookingNumber freshInvoice : String) (now : Int) :
    ApiResponse × ConferenceDb :=
  if !conferenceRequiredFieldsOk req then
    (⟨400, false, "Missing required fields"⟩, db)
  else if req.endDate < req.startDate then
    (⟨400, false, "End date cannot be before start date"⟩, db)
  else
    match db.halls.find? (fun h => h.value == req.hallType && h.isActive) with
    | none => (⟨400, false, "Selected hall is not available"⟩, db)
    | some hall =>
      if req.attendees < 1 then
        (⟨400, false, "Number of attendees must be at least 1"⟩, db)
      else if req.attendees > hall.capacity then
        let cap := hall.capacity
        let att := req.attendees
        (⟨400, false, s!"Hall capacity is {cap}, cannot book for {att} attendees"⟩, db)
      else
        let overlappingBookings :=
          db.bookings.filter (conferenceCreateOverlapFilter req.hallType req.startDate req.endDate)
        if !overlappingBookings.isEmpty then
          (⟨400, false, "Hall is already booked for selected dates"⟩, db)
        else if req.amount ≤ 0 then
          (⟨400, false, "Amount must be a positive number"⟩, db)
        else
          let paymentStatus :=
            if req.amount ≤ req.advancePaid then "paid"
            else if 0 < req.advancePaid then "partial"
            else "pending"
          let invoiceNumber :=
            match req.bookingStatus with
            | some st => if st == "approved" then freshInvoice else ""
            | none => ""
          let booking : Conference :=
            { id := newId
              eventName := req.eventName
              clientName := req.clientName
              company := req.company
              email := req.email
              phone := req.phone
              hallType := req.hallType
              startDate := req.startDate
              endDate := req.endDate
              startTime := req.startTime
              endTime := req.endTime
              eventType := req.eventType
              attendees := req.attendees
              amount := req.amount
              advancePaid := req.advancePaid
              paymentStatus := paymentStatus
              bookingStatus := "pending"
              bookingNumber := bookingNumber
              invoiceNumber := invoiceNumber
              notes := req.notes
              createdBy := userId
              approvedBy := if invoiceNumber != "" then some userId else none
              approvedAt := if invoiceNumber != "" then some now else none }
          (⟨201, true, "Booking created successfully"⟩,
            { db with bookings := db.bookings ++ [booking] })

/-- Request body of PUT /api/conference/bookings/:id; every updatable field
is optional.  bookingStatus is read by the invoice logic but is not an
updatable field. -/
structure UpdateConferenceReq where
  eventName : Option String
  clientName : Option String
  company : Option String
  email : Option String
  phone : Option String
  hallType : Option String
  startDate : Option Int
  endDate : Option Int
  startTime : Option String
  endTime : Option String
  eventType : Option String
  attendees : Option Int
  amount : Option Int
  advancePaid : Option Int
  notes : Option String
  bookingStatus : Option String
deriving Repr, DecidableEq

/-- Apply an optional request field over a current value. -/
def applyOpt (cur : α) : Option α → α
  | some v => v
  | none => cur

/-- Field update pass of conferenceController.updateBooking. -/
def applyConferenceUpdates (b : Conference) (r : UpdateConferenceReq) : Conference :=
  { b with
      eventName := applyOpt b.eventName r.eventName
      clientName := applyOpt b.clientName r.clientName
      company := applyOpt b.company r.company
      email := applyOpt b.email r.email
      phone := applyOpt b.phone r.phone
      hallType := applyOpt b.hallType r.hallType
      startDate := applyOpt b.startDate r.startDate
      endDate := applyOpt b.endDate r.endDate
      startTime := applyOpt b.startTime r.startTime
      endTime := applyOpt b.endTime r.endTime
      eventType := applyOpt b.eventType r.eventType
      attendees := applyOpt b.attendees r.attendees
      amount := applyOpt b.amount r.amount
      advancePaid := applyOpt b.advancePaid r.advancePaid
      notes := applyOpt b.notes r.notes }

/-- Payment status recomputation of updateBooking: runs only when the
request carries an advancePaid field. -/
def applyAdvancePaymentStatus (b : Conference) : Option Int → Conference
  | none => b
  | some _ =>
    if b.amount ≤ b.advancePaid then { b with paymentStatus := "paid" }
    else if 0 < b.advancePaid then { b with paymentStatus := "partial" }
    else { b with paymentStatus := "pending" }

/-- Lazy invoice generation of updateBooking: when the request carries
bookingStatus approved, the stored status is not approved and no invoice
exists yet, generate one and stamp the approval metadata. -/
def applyLazyInvoice (b : Conference) (requestedApproved : Bool)
    (userId : Nat) (now : Int) (freshInvoice : String) : Conference :=
  if requestedApproved && b.bookingStatus != "approved" &&
      b.invoiceNumber == "" then
    { b with
        invoiceNumber := freshInvoice
        approvedAt := some now
        approvedBy := some userId }
  else b

/-- Whether the optional requested bookingStatus equals approved. -/
def requestedApproved (o : Option String) : Bool :=
  match o with
  | some st => st == "approved"
  | none => false

/-- PUT /api/conference/bookings/:id (conferenceController.updateBooking).
Note that bookingStatus is not among the updatable fields, yet the invoice
generation branch reads the requested bookingStatus. -/
def ConferenceController.updateBooking (db : ConferenceDb) (bookingId : Nat)
    (req : UpdateConferenceReq) (userId : Nat) (now : Int)
    (freshInvoice : String) : ApiResponse × ConferenceDb :=
  match db.bookings.find? (fun b => b.id == bookingId) with
  | none => (⟨404, false, "Booking not found"⟩, db)
  | some booking =>
    let b3 :=
      applyLazyInvoice
        (applyAdvancePaymentStatus (applyConferenceUpdates booking req) req.advancePaid)
        (requestedApproved req.bookingStatus) userId now freshInvoice
    (⟨200, true, "Booking updated successfully"⟩,
      { db with
          bookings := updateFirstBy (fun b => b.id == bookingId) (fun _ => b3) db.bookings })

/-- Overlap filter of the status-approval check: other bookings of the same
hall with approved or confirmed status whose window intersects. -/
def conferenceApproveOverlapFilter (selfId : Nat) (hallType : String)
    (reqStart reqEnd : Int) (b : Conference) : Bool :=
  b.hallType == hallType && b.id != selfId &&
  b.startDate ≤ reqEnd && b.endDate ≥ reqStart &&
  (b.bookingStatus == "approved" || b.bookingStatus == "confirmed")

/-- PUT /api/conference/bookings/:id/status
(conferenceController.updateBookingStatus). -/
def ConferenceController.updateBookingStatus (db : ConferenceDb)
    (bookingId : Nat) (bookingStatus : String) (userId : Nat) (now : Int)
    (freshInvoice : String) : ApiResponse × ConferenceDb :=
  if !(bookingStatus == "pending" || bookingStatus == "approved" ||
       bookingStatus == "confirmed" || bookingStatus == "completed" ||
       bookingStatus == "cancelled") then
    (⟨400, false, "Invalid booking status"⟩, db)
  else
    match db.bookings.find? (fun b => b.id == bookingId) with
    | none => (⟨404, false, "Booking not found"⟩, db)
    | some booking =>
      let overlappingBookings :=
        if bookingStatus == "approved" && booking.bookingStatus != "approved" then
          db.bookings.filter
            (conferenceApproveOverlapFilter bookingId booking.hallType
              booking.startDate booking.endDate)
        else []
      if !overlappingBookings.isEmpty then
        (⟨400, false, "Hall is already booked for these dates"⟩, db)
      else
        let b1 := { booking with bookingStatus := bookingStatus }
        let b2 :=
          if bookingStatus == "approved" then
            { b1 with
                approvedBy := some userId
                approvedAt := some now
                invoiceNumber :=
                  if b1.invoiceNumber == "" then freshInvoice else b1.invoiceNumber }
          else b1
        (⟨200, true, "Booking status updated successfully"⟩,
          { db with
              bookings := updateFirstBy (fun b => b.id == bookingId) (fun _ => b2) db.bookings })

/-- DELETE /api/conference/bookings/:id (conferenceController.deleteBooking). -/
def ConferenceController.deleteBooking (db : ConferenceDb) (bookingId : Nat) :
    ApiResponse × ConferenceDb :=
  match db.bookings.find? (fun b => b.id == bookingId) with
  | none => (⟨404, false, "Booking not found"⟩, db)
  | some booking =>
    if booking.bookingStatus == "confirmed" || booking.bookingStatus == "completed" then
      (⟨400, false, "Cannot delete confirmed or completed bookings"⟩, db)
    else
      (⟨200, true, "Booking deleted successfully"⟩,
        { db with bookings := removeFirstBy (fun b => b.id == bookingId) db.bookings })

/-! ## Hotel module data model -/

/-- A hotel reservation document (mongoose model Reservation). -/
structure Reservation where
  id : Nat
  guestName : String
  email : String
  phone : String
  checkIn : Int
  checkOut : Int
  actualCheckIn : Option Int
  actualCheckOut : Option Int
  roomType : String
  roomNumber : String
  adults : Nat
  children : Nat
  totalNights : Int
  roomRate : Int
  subTotal : Int
  tax : Int
  totalAmount : Int
  paymentStatus : String
  reservationStatus : String
  specialRequests : String
  reservationNumber : String
  createdBy : Nat
deriving Repr, DecidableEq

/-- A hotel room document (mongoose model Room). -/
structure Room where
  roomNumber : String
  roomType : String
  status : String
  isActive : Bool
deriving Repr, DecidableEq

/-- A room type document (mongoose model RoomType). -/
structure RoomType where
  name : String
  basePrice : Int
deriving Repr, DecidableEq

/-- The collections touched by the hotel controller. -/
structure HotelDb where
  reservations : List Reservation
  rooms : List Room
  roomTypes : List RoomType
deriving Repr, DecidableEq

/-- Overlap filter shared by the hotel reservation queries: same room, window
intersecting by checkIn LT requested checkOut AND checkOut GT requested
checkIn, and a confirmed or checked-in status. -/
def hotelOverlapFilter (roomNumber : String) (reqCheckIn reqCheckOut : Int)
    (r : Reservation) : Bool :=
  r.roomNumber == roomNumber && r.checkIn < reqCheckOut && r.checkOut > reqCheckIn &&
  (r.reservationStatus == "confirmed" || r.reservationStatus == "checked_in")

/-- Ceiling of the division x over d as computed by Math.ceil on reals. -/
def jsCeilDiv (x d : Int) : Int := -((-x).fdiv d)

/-- One extra charge line of a reservation request. -/
structure ExtraCharge where
  service : String
  amount : Int
  quantity : Int
deriving Repr, DecidableEq

/-- Request body of POST /api/hotel/reservations. -/
structure CreateReservationReq where
  guestName : String
  email : String
  phone : String
  checkIn : Int
  checkOut : Int
  roomType : String
  roomNumber : String
  adults : Nat
  children : Nat
  paymentStatus : Option String
  specialRequests : String
  extraCharges : List ExtraCharge
deriving Repr, DecidableEq

/-- Truthiness check of the required fields of a reservation request. -/
def hotelRequiredFieldsOk (r : CreateReservationReq) : Bool :=
  r.guestName != "" && r.phone != "" && r.roomType != "" &&
  r.roomNumber != "" && r.adults != 0

/-- POST /api/hotel/reservations (hotelController.createReservation). -/
def HotelController.createReservation (db : HotelDb)
    (req : CreateReservationReq) (userId newId : Nat)
    (reservationNumber : String) : ApiResponse × HotelDb :=
  if !hotelRequiredFieldsOk req then
    (⟨400, false, "Please provide all required fields"⟩, db)
  else
    match db.rooms.find? (fun rm => rm.roomNumber == req.roomNumber) with
    | none => (⟨400, false, "Selected room is not available"⟩, db)
    | some room =>
      if room.status != "available" then
        (⟨400, false, "Selected room is not available"⟩, db)
      else
        let overlappingReservations :=
          db.reservations.filter (hotelOverlapFilter req.roomNumber req.checkIn req.checkOut)
        if !overlappingReservations.isEmpty then
          (⟨400, false, "Room is already booked for selected dates"⟩, db)
        else
          match db.roomTypes.find? (fun t => t.name == req.roomType) with
          | none => (⟨400, false, "Invalid room type"⟩, db)
          | some roomTypeInfo =>
            let nights := jsCeilDiv (req.checkOut - req.checkIn) msPerDay
            if nights ≤ 0 then
              (⟨400, false, "Check-out date must be after check-in date"⟩, db)
            else
              let roomRate := roomTypeInfo.basePrice
              let roomTotal := roomRate * nights
              let servicesTotal :=
                (req.extraCharges.map (fun c => c.amount * c.quantity)).sum
              let subTotal := roomTotal + servicesTotal
              let reservation : Reservation :=
                { id := newId
                  guestName := req.guestName
                  email := req.email
                  phone := req.phone
                  checkIn := req.checkIn
                  checkOut := req.checkOut
                  actualCheckIn := none
                  actualCheckOut := none
                  roomType := req.roomType
                  roomNumber := req.roomNumber
                  adults := req.adults
                  children := req.children
                  totalNights := nights
                  roomRate := roomRate
                  subTotal := subTotal
                  tax := 0
                  totalAmount := subTotal + 0
                  paymentStatus := req.paymentStatus.getD "pending"
                  reservationStatus := "confirmed"
                  specialRequests := req.specialRequests
                  reservationNumber := reservationNumber
                  createdBy := userId }
              let rooms2 :=
                updateFirstBy (fun rm => rm.roomNumber == req.roomNumber)
                  (fun rm => { rm with status := "occupied" }) db.rooms
              (⟨201, true, "Reservation created successfully"⟩,
                { db with
                    reservations := db.reservations ++ [reservation]
                    rooms := rooms2 })

/-- PUT /api/hotel/reservations/:id/checkout (hotelController.checkOut). -/
def HotelController.checkOut (db : HotelDb) (reservationId : Nat) (now : Int) :
    ApiResponse × HotelDb :=
  match db.reservations.find? (fun r => r.id == reservationId) with
  | none => (⟨404, false, "Reservation not found"⟩, db)
  | some reservation =>
    if reservation.reservationStatus != "checked_in" then
      (⟨400, false, "Only checked-in guests can check out"⟩, db)
    else if reservation.paymentStatus == "pending" ||
            reservation.paymentStatus == "partial" then
      (⟨400, false,
        "Cannot check out with pending payment. Please update payment status to \"paid\" first."⟩,
        db)
    else
      let r2 := { reservation with
                    reservationStatus := "checked_out"
                    actualCheckOut := some now }
      let rooms2 :=
        if (db.rooms.find? (fun rm => rm.roomNumber == reservation.roomNumber)).isSome then
          updateFirstBy (fun rm => rm.roomNumber == reservation.roomNumber)
            (fun rm => { rm with status := "cleaning" }) db.rooms
        else db.rooms
      (⟨200, true, "Guest checked out successfully"⟩,
        { db with
            reservations := updateFirstBy (fun r => r.id == reservationId)
              (fun _ => r2) db.reservations
            rooms := rooms2 })

/-- DELETE /api/hotel/reservations/:id (hotelController.deleteReservation). -/
def HotelController.deleteReservation (db : HotelDb) (reservationId : Nat) :
    ApiResponse × HotelDb :=
  match db.reservations.find? (fun r => r.id == reservationId) with
  | none => (⟨404, false, "Reservation not found"⟩, db)
  | some reservation =>
    let rooms2 :=
      if (reservation.reservationStatus == "confirmed" ||
          reservation.reservationStatus == "checked_in") &&
         (db.rooms.find? (fun rm => rm.roomNumber == reservation.roomNumber)).isSome then
        let otherReservations :=
          db.reservations.filter (fun r =>
            r.id != reservationId &&
            hotelOverlapFilter reservation.roomNumber reservation.checkIn
              reservation.checkOut r)
        if otherReservations.isEmpty then
          updateFirstBy (fun rm => rm.roomNumber == reservation.roomNumber)
            (fun rm => { rm with status := "available" }) db.rooms
        else db.rooms
      else db.rooms
    (⟨200, true, "Reservation deleted successfully"⟩,
      { db with
          reservations := removeFirstBy (fun r => r.id == reservationId) db.reservations
          rooms := rooms2 })

/-! ## Time slot controller -/

/-- Request body of PUT /api/pool/time-slots/:id. -/
structure UpdateTimeSlotReq where
  label : Option String
  maxCapacity : Option Int
  isActive : Option Bool
deriving Repr, DecidableEq

/-- Apply the optional isActive field of an update request. -/
def applyIsActive (t : TimeSlot) : Option Bool → TimeSlot
  | some b => { t with isActive := b }
  | none => t

/-- Apply the optional label field of an update request; the empty string is
falsy and is skipped. -/
def applyLabel (t : TimeSlot) : Option String → TimeSlot
  | some l => if l != "" then { t with label := l } else t
  | none => t

/-- PUT /api/pool/time-slots/:id (timeSlotController.updateTimeSlot).  The
document is addressed by its unique slotId. -/
def TimeSlotController.updateTimeSlot (slots : List TimeSlot) (slotId : String)
    (req : UpdateTimeSlotReq) : ApiResponse × List TimeSlot :=
  match slots.find? (fun t => t.slotId == slotId) with
  | none => (⟨404, false, "Time slot not found"⟩, slots)
  | some timeSlot =>
    let t1 := applyLabel timeSlot req.label
    match req.maxCapacity with
    | some c =>
      if c < t1.currentBookings then
        let cur := t1.currentBookings
        (⟨400, false, s!"Cannot set capacity lower than current bookings ({cur})"⟩, slots)
      else
        let t2 := applyIsActive { t1 with maxCapacity := c } req.isActive
        (⟨200, true, "Time slot updated successfully"⟩,
          updateFirstBy (fun t => t.slotId == slotId) (fun _ => t2) slots)
    | none =>
      let t2 := applyIsActive t1 req.isActive
      (⟨200, true, "Time slot updated successfully"⟩,
        updateFirstBy (fun t => t.slotId == slotId) (fun _ => t2) slots)

/-! ## Initialization routines (upsert by business key) -/

/-- One step of an initialization routine: look the default up by its business
key; create it when missing, otherwise overwrite the refreshed fields of the
first (unique-key) match. -/
def upsertStep (key : α → String) (upd : α → α → α) (l : List α) (d : α) :
    List α :=
  match l.find? (fun t => key t == key d) with
  | none => l ++ [d]
  | some _ => updateFirstBy (fun t => key t == key d) (upd d) l

/-- Run an initialization routine over its list of built-in defaults. -/
def upsertAll (key : α → String) (upd : α → α → α) (defaults : List α)
    (l : List α) : List α :=
  defaults.foldl (upsertStep key upd) l

/-- The built-in default time slots of timeSlotController.initializeTimeSlots. -/
def defaultTimeSlots : List TimeSlot :=
  [ { slotId := "1", label := "06:00 AM - 09:00 AM", value := "06:00-09:00",
      startTime := "06:00", endTime := "09:00",
      maxCapacity := 50, currentBookings := 12, isActive := true },
    { slotId := "2", label := "09:00 AM - 12:00 PM", value := "09:00-12:00",
      startTime := "09:00", endTime := "12:00",
      maxCapacity := 50, currentBookings := 8, isActive := true },
    { slotId := "3", label := "12:00 PM - 03:00 PM", value := "12:00-15:00",
      startTime := "12:00", endTime := "15:00",
      maxCapacity := 50, currentBookings := 15, isActive := true },
    { slotId := "4", label := "03:00 PM - 06:00 PM", value := "15:00-18:00",
      startTime := "15:00", endTime := "18:00",
      maxCapacity := 50, currentBookings := 20, isActive := true },
    { slotId := "5", label := "06:00 PM - 09:00 PM", value := "18:00-21:00",
      startTime := "18:00", endTime := "21:00",
      maxCapacity := 50, currentBookings := 25, isActive := true } ]

/-- Refresh pass applied to an already existing slot: only maxCapacity and
currentBookings are assigned before saving. -/
def slotRefresh (d t : TimeSlot) : TimeSlot :=
  { t with maxCapacity := d.maxCapacity, currentBookings := d.currentBookings }

/-- POST /api/pool/time-slots/initialize
(timeSlotController.initializeTimeSlots), as a transformation of the
TimeSlot collection. -/
def TimeSlotController.initializeTimeSlots (slots : List TimeSlot) :
    List TimeSlot :=
  upsertAll TimeSlot.value slotRefresh defaultTimeSlots slots

/-- A hotel service document (mongoose model Service). -/
structure Service where
  name : String
  description : String
  price : Int
  category : String
  isAvailable : Bool
deriving Repr, DecidableEq

/-- The built-in default services of serviceController.initializeServices;
created documents take the schema default isAvailable true. -/
def defaultServices : List Service :=
  [ { name := "Breakfast Buffet", description := "Continental breakfast buffet",
      price := 15, category := "food", isAvailable := true },
    { name := "Lunch Special", description := "Daily lunch special from the restaurant",
      price := 20, category := "food", isAvailable := true },
    { name := "Dinner Package", description := "Three-course dinner package",
      price := 35, category := "food", isAvailable := true },
    { name := "Room Service", description := "24-hour room service",
      price := 10, category := "food", isAvailable := true },
    { name := "Mineral Water", description := "Bottled mineral water",
      price := 2, category := "beverage", isAvailable := true },
    { name := "Soft Drinks", description := "Assorted soft drinks",
      price := 3, category := "beverage", isAvailable := true },
    { name := "Wine Selection", description := "Premium wine selection",
      price := 25, category := "beverage", isAvailable := true },
    { name := "Spa Treatment", description := "Relaxing spa treatment",
      price := 50, category := "spa", isAvailable := true },
    { name := "Massage Therapy", description := "Professional massage therapy",
      price := 40, category := "spa", isAvailable := true },
    { name := "Laundry Service", description := "Express laundry service",
      price := 15, category := "laundry", isAvailable := true },
    { name := "Dry Cleaning", description := "Professional dry cleaning",
      price := 20, category := "laundry", isAvailable := true },
    { name := "Airport Transfer", description := "Hotel to airport transfer",
      price := 25, category := "transport", isAvailable := true },
    { name := "City Tour", description := "Guided city tour",
      price := 30, category := "transport", isAvailable := true } ]

/-- Refresh pass applied to an already existing service: Object.assign with
the default data overwrites name, description, price and category. -/
def serviceRefresh (d t : Service) : Service :=
  { t with name := d.name, description := d.description,
           price := d.price, category := d.category }

/-- POST /api/hotel/services/initialize
(serviceController.initializeServices), as a transformation of the Service
collection. -/
def ServiceController.initializeServices (services : List Service) :
    List Service :=
  upsertAll Service.name serviceRefresh defaultServices services

/-! ## Helper lemmas about find?, updateFirstBy and removeFirstBy -/

theorem find?_append_of_some {p : α → Bool} {l l2 : List α} {x : α}
    (h : l.find? p = some x) : (l ++ l2).find? p = some x := by
  induction l with
  | nil => simp [List.find?] at h
  | cons a t ih =>
    by_cases hp : p a
    · simp [List.find?_cons_of_pos _ hp] at h ⊢; exact h
    · simp only [List.find?_cons_of_neg _ hp] at h
      simpa [List.find?_cons_of_neg _ hp] using ih h

theorem find?_append_of_none {p : α → Bool} {l l2 : List α}
    (h : l.find? p = none) : (l ++ l2).find? p = l2.find? p := by
  induction l with
  | nil => simp
  | cons a t ih =>
    by_cases hp : p a
    · simp [List.find?_cons_of_pos _ hp] at h
    · simp only [List.find?_cons_of_neg _ hp] at h
      simpa [List.find?_cons_of_neg _ hp] using ih h

theorem updateFirstBy_eq_self {p : α → Bool} {f : α → α} {l : List α}
    (h : ∀ x, l.find? p = some x → f x = x) : updateFirstBy p f l = l := by
  induction l with
  | nil => rfl
  | cons a t ih =>
    by_cases hp : p a
    · have := h a (by simp [List.find?_cons_of_pos _ hp])
      simp [updateFirstBy, hp, this]
    · have ht : updateFirstBy p f t = t := by
        refine ih (fun x hx => h x ?_)
        simp [List.find?_cons_of_neg _ hp, hx]
      simp [updateFirstBy, hp, ht]

theorem find?_updateFirstBy_self {p : α → Bool} {f : α → α} {l : List α} {x : α}
    (h : l.find? p = some x) (hf : p (f x) = true) :
    (updateFirstBy p f l).find? p = some (f x) := by
  induction l with
  | nil => simp [List.find?] at h
  | cons a t ih =>
    by_cases hp : p a
    · simp only [List.find?_cons_of_pos _ hp, Option.some.injEq] at h
      subst h
      simp [updateFirstBy, hp, List.find?_cons_of_pos _ hf]
    · simp only [List.find?_cons_of_neg _ hp] at h
      simp [updateFirstBy, hp, List.find?_cons_of_neg _ hp, ih h]

theorem find?_updateFirstBy_disjoint {p q : α → Bool} {f : α → α} {l : List α}
    (h : ∀ x, q x = true → p x = false ∧ p (f x) = false) :
    (updateFirstBy q f l).find? p = l.find? p := by
  induction l with
  | nil => rfl
  | cons a t ih =>
    by_cases hq : q a
    · obtain ⟨h1, h2⟩ := h a hq
      simp [updateFirstBy, hq, List.find?_cons_of_neg, h1, h2]
    · by_cases hp : p a
      · simp [updateFirstBy, hq, List.find?_cons_of_pos _ hp]
      · simp [updateFirstBy, hq, List.find?_cons_of_neg _ hp, ih]

theorem find?_removeFirstBy_of_nodup {p : α → Bool} {l : List α} {x : α}
    (hnd : (l.filter p).length ≤ 1) (h : l.find? p = some x) :
    (removeFirstBy p l).find? p = none := by
  induction l with
  | nil => simp [List.find?] at h
  | cons a t ih =>
    by_cases hp : p a
    · simp only [removeFirstBy, if_pos hp]
      simp only [List.filter_cons, if_pos hp, List.length_cons] at hnd
      have hlen : (t.filter p).length = 0 := by omega
      have hnil : t.filter p = [] := List.length_eq_zero.mp hlen
      rw [List.find?_eq_none]
      intro y hy hpy
      simp [List.filter_eq_nil_iff.mp hnil y hy] at hpy
    · simp only [removeFirstBy, if_neg hp]
      simp only [List.find?_cons_of_neg _ hp] at h
      simp only [List.filter_cons, if_neg hp] at hnd
      simp [List.find?_cons_of_neg _ hp, ih hnd h]

theorem length_removeFirstBy_of_some {p : α → Bool} {l : List α} {x : α}
    (h : l.find? p = some x) :
    (removeFirstBy p l).length + 1 = l.length := by
  induction l with
  | nil => simp [List.find?] at h
  | cons a t ih =>
    by_cases hp : p a
    · simp [removeFirstBy, hp]
    · simp only [List.find?_cons_of_neg _ hp] at h
      simp [removeFirstBy, hp, ← ih h]

/-! ## Idempotence machinery for the upsert-by-key initialization pattern -/

/-- The default d is stably present in l: the lookup by its business key
finds a document that a refresh pass leaves unchanged. -/
def UpsertGood (key : α → String) (upd : α → α → α) (d : α) (l : List α) :
    Prop :=
  ∃ t, l.find? (fun x => key x == key d) = some t ∧ upd d t = t

theorem upsertStep_establishes {key : α → String} {upd : α → α → α}
    (hkey : ∀ d t, key t = key d → key (upd d t) = key t)
    (hidem : ∀ d t, upd d (upd d t) = upd d t)
    (hself : ∀ d, upd d d = d)
    (l : List α) (d : α) : UpsertGood key upd d (upsertStep key upd l d) := by
  unfold upsertStep
  cases hfind : l.find? (fun x => key x == key d) with
  | none =>
    refine ⟨d, ?_, hself d⟩
    rw [find?_append_of_none hfind]
    simp [List.find?]
  | some t =>
    have ht : key t = key d := by
      have := List.find?_some hfind
      simpa using this
    refine ⟨upd d t, ?_, hidem d t⟩
    apply find?_updateFirstBy_self hfind
    simp [hkey d t ht, ht]

theorem upsertStep_preserves {key : α → String} {upd : α → α → α}
    (hkey : ∀ d t, key t = key d → key (upd d t) = key t)
    {d d2 : α} (hne : key d2 ≠ key d) {l : List α}
    (hg : UpsertGood key upd d l) :
    UpsertGood key upd d (upsertStep key upd l d2) := by
  obtain ⟨t, hfind, hupd⟩ := hg
  unfold upsertStep
  cases hfind2 : l.find? (fun x => key x == key d2) with
  | none => exact ⟨t, find?_append_of_some hfind, hupd⟩
  | some u =>
    refine ⟨t, ?_, hupd⟩
    rw [find?_updateFirstBy_disjoint]
    · exact hfind
    · intro x hx
      have hx2 : key x = key d2 := by simpa using hx
      constructor
      · simp [hx2, hne]
      · simp [hkey d2 x hx2, hx2, hne]

theorem foldl_upsertStep_preserves {key : α → String} {upd : α → α → α}
    (hkey : ∀ d t, key t = key d → key (upd d t) = key t)
    {d : α} {ds : List α} (hne : ∀ d2 ∈ ds, key d2 ≠ key d) {l : List α}
    (hg : UpsertGood key upd d l) :
    UpsertGood key upd d (ds.foldl (upsertStep key upd) l) := by
  induction ds generalizing l with
  | nil => exact hg
  | cons a t ih =>
    simp only [List.foldl_cons]
    exact ih (fun x hx => hne x (List.mem_cons_of_mem a hx))
      (upsertStep_preserves hkey (hne a (List.mem_cons_self a t)) hg)

theorem upsertAll_establishes {key : α → String} {upd : α → α → α}
    (hkey : ∀ d t, key t = key d → key (upd d t) = key t)
    (hidem : ∀ d t, upd d (upd d t) = upd d t)
    (hself : ∀ d, upd d d = d)
    {ds : List α} (hnodup : ds.Pairwise (fun a b => key a ≠ key b))
    (l : List α) :
    ∀ d ∈ ds, UpsertGood key upd d (upsertAll key upd ds l) := by
  induction ds generalizing l with
  | nil => intro d hd; simp at hd
  | cons a t ih =>
    intro d hd
    rcases List.mem_cons.mp hd with rfl | hd2
    · have hne : ∀ d2 ∈ t, key d2 ≠ key d := by
        intro d2 h2
        exact ((List.pairwise_cons.mp hnodup).1 d2 h2).symm
      exact foldl_upsertStep_preserves hkey hne
        (upsertStep_establishes hkey hidem hself l d)
    · exact ih (List.pairwise_cons.mp hnodup).2 (upsertStep key upd l a) d hd2

theorem upsertStep_id {key : α → String} {upd : α → α → α} {d : α}
    {l : List α} (hg : UpsertGood key upd d l) :
    upsertStep key upd l d = l := by
  obtain ⟨t, hfind, hupd⟩ := hg
  unfold upsertStep
  rw [hfind]
  apply updateFirstBy_eq_self
  intro x hx
  rw [hfind] at hx
  cases hx
  exact hupd

theorem foldl_upsertStep_id {key : α → String} {upd : α → α → α}
    {ds : List α} {l : List α} (hg : ∀ d ∈ ds, UpsertGood key upd d l) :
    ds.foldl (upsertStep key upd) l = l := by
  induction ds with
  | nil => rfl
  | cons a t ih =>
    have ha : upsertStep key upd l a = l := upsertStep_id (hg a (by simp))
    simp only [List.foldl_cons, ha]
    exact ih (fun d hd => hg d (List.mem_cons_of_mem a hd))

theorem upsertAll_idem {key : α → String} {upd : α → α → α}
    (hkey : ∀ d t, key t = key d → key (upd d t) = key t)
    (hidem : ∀ d t, upd d (upd d t) = upd d t)
    (hself : ∀ d, upd d d = d)
    {ds : List α} (hnodup : ds.Pairwise (fun a b => key a ≠ key b))
    (l : List α) :
    upsertAll key upd ds (upsertAll key upd ds l) = upsertAll key upd ds l :=
  foldl_upsertStep_id (upsertAll_establishes hkey hidem hself hnodup l)

/-! ## Claim theorems -/

/-- C6: Each capacity-resource initialization routine (time slots by slot
value, services by service name) is idempotent as an upsert by business key:
running it a second time with the same built-in defaults changes nothing, so
no duplicate resources are created and the capacity and business-key fields
of already present resources are left as the first run left them; moreover
two runs from an empty collection yield pairwise distinct business keys. -/
theorem initialization_idempotent :
    (∀ s, TimeSlotController.initializeTimeSlots
        (TimeSlotController.initializeTimeSlots s) =
        TimeSlotController.initializeTimeSlots s) ∧
    (∀ s, ServiceController.initializeServices
        (ServiceController.initializeServices s) =
        ServiceController.initializeServices s) ∧
    ((TimeSlotController.initializeTimeSlots
        (TimeSlotController.initializeTimeSlots [])).map TimeSlot.value).Nodup ∧
    ((ServiceController.initializeServices
        (ServiceController.initializeServices [])).map Service.name).Nodup := by
  have hnd1 : defaultTimeSlots.Pairwise
      (fun a b => TimeSlot.value a ≠ TimeSlot.value b) := by decide
  have hnd2 : defaultServices.Pairwise
      (fun a b => Service.name a ≠ Service.name b) := by decide
  refine ⟨fun s => ?_, fun s => ?_, by decide, by decide⟩
  · exact @upsertAll_idem TimeSlot TimeSlot.value slotRefresh
      (fun d t _ => rfl) (fun d t => rfl) (fun d => rfl)
      defaultTimeSlots hnd1 s
  · exact @upsertAll_idem Service Service.name serviceRefresh
      (fun d t h => h.symm) (fun d t => rfl) (fun d => rfl)
      defaultServices hnd2 s

theorem applyIsActive_slotId (t : TimeSlot) (o : Option Bool) :
    (applyIsActive t o).slotId = t.slotId := by cases o <;> rfl

theorem applyIsActive_maxCapacity (t : TimeSlot) (o : Option Bool) :
    (applyIsActive t o).maxCapacity = t.maxCapacity := by cases o <;> rfl

theorem applyIsActive_currentBookings (t : TimeSlot) (o : Option Bool) :
    (applyIsActive t o).currentBookings = t.currentBookings := by cases o <;> rfl

theorem applyLabel_slotId (t : TimeSlot) (o : Option String) :
    (applyLabel t o).slotId = t.slotId := by
  cases o with
  | none => rfl
  | some l => by_cases h : l != "" <;> simp [applyLabel, h]

theorem applyLabel_maxCapacity (t : TimeSlot) (o : Option String) :
    (applyLabel t o).maxCapacity = t.maxCapacity := by
  cases o with
  | none => rfl
  | some l => by_cases h : l != "" <;> simp [applyLabel, h]

theorem applyLabel_currentBookings (t : TimeSlot) (o : Option String) :
    (applyLabel t o).currentBookings = t.currentBookings := by
  cases o with
  | none => rfl
  | some l => by_cases h : l != "" <;> simp [applyLabel, h]

/-- C9: A time-slot update that requests a maxCapacity strictly below the
slot's currentBookings fails with a 400 error and leaves the collection
unchanged; consequently every successful updateTimeSlot call preserves the
invariant maxCapacity GE currentBookings of the addressed slot. -/
theorem updateTimeSlot_capacity_guard (slots : List TimeSlot) (slotId : String)
    (req : UpdateTimeSlotReq) (slot : TimeSlot) (c : Int)
    (hfind : slots.find? (fun t => t.slotId == slotId) = some slot) :
    (req.maxCapacity = some c → c < slot.currentBookings →
      (TimeSlotController.updateTimeSlot slots slotId req).1.status = 400 ∧
      (TimeSlotController.updateTimeSlot slots slotId req).2 = slots) ∧
    (slot.currentBookings ≤ slot.maxCapacity →
      (TimeSlotController.updateTimeSlot slots slotId req).1.status = 200 →
      ∀ t2, (TimeSlotController.updateTimeSlot slots slotId req).2.find?
          (fun t => t.slotId == slotId) = some t2 →
        t2.currentBookings ≤ t2.maxCapacity) := by
  have hkey : (slot.slotId == slotId) = true := by
    simpa using List.find?_some hfind
  obtain ⟨lab, mc, ia⟩ := req
  unfold TimeSlotController.updateTimeSlot
  rw [hfind]
  simp only
  constructor
  · rintro rfl hlt
    simp only [applyLabel_currentBookings]
    rw [if_pos hlt]
    exact ⟨rfl, rfl⟩
  · intro hinv hsucc t2 ht2
    cases mc with
    | some cap =>
      simp only at hsucc ht2
      by_cases hlt : cap < (applyLabel slot lab).currentBookings
      · rw [if_pos hlt] at hsucc
        simp at hsucc
      · rw [if_neg hlt] at ht2
        rw [applyLabel_currentBookings] at hlt
        have hnew :
            ((fun t => t.slotId == slotId)
              (applyIsActive { applyLabel slot lab with maxCapacity := cap } ia)) = true := by
          simp only [applyIsActive_slotId]
          simpa [applyLabel_slotId] using hkey
        rw [find?_updateFirstBy_self hfind hnew] at ht2
        cases ht2
        rw [applyIsActive_currentBookings, applyIsActive_maxCapacity]
        simp only [applyLabel_currentBookings]
        omega
    | none =>
      simp only at ht2
      have hnew :
          ((fun t => t.slotId == slotId) (applyIsActive (applyLabel slot lab) ia)) = true := by
        simp only [applyIsActive_slotId]
        simpa [applyLabel_slotId] using hkey
      rw [find?_updateFirstBy_self hfind hnew] at ht2
      cases ht2
      rw [applyIsActive_currentBookings, applyIsActive_maxCapacity]
      simp only [applyLabel_currentBookings, applyLabel_maxCapacity]
      omega

/-- Concrete slot for the C9 witness. -/
def c9Slot : TimeSlot :=
  { slotId := "1", label := "06:00 AM - 09:00 AM", value := "06:00-09:00",
    startTime := "06:00", endTime := "09:00",
    maxCapacity := 50, currentBookings := 12, isActive := true }

/-- Witness for C9 at a concrete input: lowering capacity 50 to 5 below the
12 current bookings is rejected and the collection is unchanged. -/
theorem updateTimeSlot_capacity_guard_witness :
    (TimeSlotController.updateTimeSlot [c9Slot] "1" ⟨none, some 5, none⟩).1.status = 400 ∧
    (TimeSlotController.updateTimeSlot [c9Slot] "1" ⟨none, some 5, none⟩).2 = [c9Slot] :=
  (updateTimeSlot_capacity_guard [c9Slot] "1" ⟨none, some 5, none⟩ c9Slot 5
    (by decide)).1 rfl (by decide)

/-- C1: A pool booking request for p persons on a slot of capacity C with B
persons already committed by non-cancelled same-day same-slot bookings is
admitted (201) only if B + p LE C, and when B + p exceeds C it is rejected
with a 400 error whose message reports the C - B remaining spots, leaving
the database unchanged. -/
theorem pool_create_capacity (db : PoolDb) (req : CreatePoolReq)
    (userId newId : Nat) (bn : String) (slot : TimeSlot)
    (hfields : poolRequiredFieldsOk req = true)
    (hslot : db.timeSlots.find? (fun s => s.value == req.timeSlot) = some slot)
    (hactive : slot.isActive = true) :
    ((PoolController.createBooking db req userId newId bn).1.status = 201 →
      sumPersons (db.bookings.filter (poolSameDaySlotActive (startOfDay req.date)
          (endOfDay req.date) req.timeSlot)) + (req.persons : Int) ≤ slot.maxCapacity) ∧
    (slot.maxCapacity < sumPersons (db.bookings.filter (poolSameDaySlotActive
          (startOfDay req.date) (endOfDay req.date) req.timeSlot)) + (req.persons : Int) →
      PoolController.createBooking db req userId newId bn =
        (⟨400, false,
          "Only " ++ toString (slot.maxCapacity - sumPersons (db.bookings.filter
            (poolSameDaySlotActive (startOfDay req.date) (endOfDay req.date)
              req.timeSlot))) ++ " spots available in this slot"⟩, db)) := by
  unfold PoolController.createBooking
  rw [hslot]
  simp only [hfields, hactive, Bool.not_true, Bool.false_eq_true, if_false]
  constructor
  · intro hsucc
    by_contra hno
    rw [if_pos (by omega)] at hsucc
    simp at hsucc
  · intro hgt
    rw [if_pos (by omega)]
    rfl

/-- Concrete time slot of capacity 50 for the C1 witness. -/
def c1Slot : TimeSlot :=
  { slotId := "2", label := "09:00 AM - 12:00 PM", value := "09:00-12:00",
    startTime := "09:00", endTime := "12:00",
    maxCapacity := 50, currentBookings := 40, isActive := true }

/-- A paid pool booking of ten persons for the C1 witness. -/
def c1Booking (i : Nat) : Pool :=
  { id := i, customerName := "Guest", email := "g@x.com", phone := "1",
    date := 0, timeSlot := "09:00-12:00", passType := "daily", persons := 10,
    amount := 50, paymentStatus := "paid", notes := "",
    bookingNumber := "PB-0", createdBy := 1 }

/-- Pool database with 40 persons already booked on the slot (C1 witness). -/
def c1Db : PoolDb :=
  { bookings := [c1Booking 1, c1Booking 2, c1Booking 3, c1Booking 4],
    timeSlots := [c1Slot],
    ticketPrices := [] }

/-- Request for 15 more persons on the same day and slot (C1 witness). -/
def c1Req : CreatePoolReq :=
  { customerName := "New Guest", email := "n@x.com", phone := "2",
    date := 0, timeSlot := "09:00-12:00", passType := "daily", persons := 15,
    paymentStatus := none, notes := "" }

/-- Witness for C1 at the spec scenario: capacity 50 with 40 booked rejects
a request for 15 persons with the ten-remaining-spots message. -/
theorem pool_create_capacity_witness :
    PoolController.createBooking c1Db c1Req 1 100 "PB-5" =
      (⟨400, false, "Only 10 spots available in this slot"⟩, c1Db) := by
  have h := (pool_create_capacity c1Db c1Req 1 100 "PB-5" c1Slot
    (by decide) (by decide) (by decide)).2 (by decide)
  rw [h]
  rfl

/-- C10: The amount stored on a successfully created pool booking is the
flat ticket price for a family pass and ticket price times persons for any
other pass type. -/
theorem pool_create_amount (db : PoolDb) (req : CreatePoolReq)
    (userId newId : Nat) (bn : String) (ticket : TicketPrice)
    (hticket : db.ticketPrices.find?
      (fun t => t.passType == req.passType && t.isActive) = some ticket)
    (hsucc : (PoolController.createBooking db req userId newId bn).1.status = 201) :
    ∃ b : Pool,
      (PoolController.createBooking db req userId newId bn).2.bookings.getLast? = some b ∧
      b.amount = (if req.passType == "family" then ticket.price
                  else ticket.price * (req.persons : Int)) ∧
      b.persons = req.persons := by
  unfold PoolController.createBooking at hsucc ⊢
  by_cases h1 : poolRequiredFieldsOk req
  case neg => simp [h1] at hsucc
  simp only [h1, Bool.not_true, Bool.false_eq_true, if_false] at hsucc ⊢
  cases h2 : db.timeSlots.find? (fun s => s.value == req.timeSlot) with
  | none => rw [h2] at hsucc; simp at hsucc
  | some slot =>
    rw [h2] at hsucc
    simp only at hsucc ⊢
    by_cases h3 : slot.isActive
    case neg => simp [h3] at hsucc
    simp only [h3, Bool.not_true, Bool.false_eq_true, if_false] at hsucc ⊢
    by_cases h4 : slot.maxCapacity - sumPersons (List.filter
        (poolSameDaySlotActive (startOfDay req.date) (endOfDay req.date)
          req.timeSlot) db.bookings) < (req.persons : Int)
    case pos => rw [if_pos h4] at hsucc; simp at hsucc
    rw [if_neg h4] at hsucc ⊢
    rw [hticket] at hsucc ⊢
    simp only at hsucc ⊢
    by_cases h5 : (req.persons : Int) > ticket.maxPersons
    case pos => rw [if_pos h5] at hsucc; simp at hsucc
    rw [if_neg h5] at hsucc ⊢
    exact ⟨_, List.getLast?_concat db.bookings, rfl, rfl⟩

/-- Concrete family ticket for the C10 witness. -/
def c10Ticket : TicketPrice :=
  { passType := "family", price := 100, description := "Family pass",
    maxPersons := 6, isActive := true }

/-- Concrete pool database for the C10 witness. -/
def c10Db : PoolDb :=
  { bookings := [],
    timeSlots := [c1Slot],
    ticketPrices := [c10Ticket] }

/-- Family-pass request of four persons for the C10 witness. -/
def c10Req : CreatePoolReq :=
  { customerName := "Fam", email := "f@x.com", phone := "3",
    date := 0, timeSlot := "09:00-12:00", passType := "family", persons := 4,
    paymentStatus := none, notes := "" }

/-- Witness for C10 at a concrete input: a family booking of four persons is
stored with the flat ticket price as its amount. -/
theorem pool_create_amount_witness :
    ∃ b : Pool,
      (PoolController.createBooking c10Db c10Req 1 10 "PB-9").2.bookings.getLast? = some b ∧
      b.amount = (if c10Req.passType == "family" then c10Ticket.price
                  else c10Ticket.price * (c10Req.persons : Int)) ∧
      b.persons = c10Req.persons :=
  pool_create_amount c10Db c10Req 1 10 "PB-9" c10Ticket (by decide) (by decide)

/-- C3: Reactivating a cancelled pool booking (payment status back to paid or
pending) succeeds only if its persons still fit into the slot capacity left
by the non-cancelled sibling bookings of the same day and slot; otherwise the
call fails with a 400 slot-now-full error and the database, hence the stored
cancelled payment status, is unchanged. -/
theorem pool_reactivate_capacity (db : PoolDb) (bookingId : Nat)
    (ps : String) (booking : Pool) (slot : TimeSlot)
    (hbk : db.bookings.find? (fun b => b.id == bookingId) = some booking)
    (hcancelled : booking.paymentStatus = "cancelled")
    (hps : ps = "paid" ∨ ps = "pending")
    (hslot : db.timeSlots.find? (fun s => s.value == booking.timeSlot) = some slot) :
    ((PoolController.updatePaymentStatus db bookingId ps).1.status = 200 →
      sumPersons (db.bookings.filter (fun b => b.id != bookingId &&
          poolSameDaySlotActive (startOfDay booking.date) (endOfDay booking.date)
            booking.timeSlot b)) + (booking.persons : Int) ≤ slot.maxCapacity) ∧
    (slot.maxCapacity < sumPersons (db.bookings.filter (fun b => b.id != bookingId &&
          poolSameDaySlotActive (startOfDay booking.date) (endOfDay booking.date)
            booking.timeSlot b)) + (booking.persons : Int) →
      PoolController.updatePaymentStatus db bookingId ps =
        (⟨400, false,
          "Slot is now full. Only " ++ toString (slot.maxCapacity -
            sumPersons (db.bookings.filter (fun b => b.id != bookingId &&
              poolSameDaySlotActive (startOfDay booking.date) (endOfDay booking.date)
                booking.timeSlot b))) ++ " spots available"⟩, db)) := by
  have hvalid : (!(ps == "paid" || ps == "pending" || ps == "cancelled")) = false := by
    rcases hps with rfl | rfl <;> rfl
  have hcond1 : (ps == "cancelled" && booking.paymentStatus != "cancelled") = false := by
    rcases hps with rfl | rfl <;> rfl
  have hcond2 : (booking.paymentStatus == "cancelled" && ps != "cancelled") = true := by
    rw [hcancelled]
    rcases hps with rfl | rfl <;> rfl
  unfold PoolController.updatePaymentStatus
  rw [hbk]
  simp only [hvalid, hcond1, hcond2, Bool.false_eq_true, if_false, if_true]
  rw [hslot]
  simp only
  constructor
  · intro hsucc
    by_contra hno
    rw [if_pos (by omega)] at hsucc
    simp at hsucc
  · intro hgt
    rw [if_pos (by omega)]
    rfl

/-- Concrete slot for the C3 witness. -/
def c3Slot : TimeSlot :=
  { slotId := "3", label := "12:00 PM - 03:00 PM", value := "12:00-15:00",
    startTime := "12:00", endTime := "15:00",
    maxCapacity := 50, currentBookings := 45, isActive := true }

/-- Cancelled ten-person booking for the C3 witness. -/
def c3Cancelled : Pool :=
  { id := 1, customerName := "A", email := "a@x.com", phone := "1",
    date := 0, timeSlot := "12:00-15:00", passType := "daily", persons := 10,
    amount := 50, paymentStatus := "cancelled", notes := "",
    bookingNumber := "PB-1", createdBy := 1 }

/-- Sibling paid booking of 45 persons for the C3 witness. -/
def c3Active : Pool :=
  { id := 2, customerName := "B", email := "b@x.com", phone := "2",
    date := 0, timeSlot := "12:00-15:00", passType := "daily", persons := 45,
    amount := 225, paymentStatus := "paid", notes := "",
    bookingNumber := "PB-2", createdBy := 1 }

/-- Pool database for the C3 witness. -/
def c3Db : PoolDb :=
  { bookings := [c3Cancelled, c3Active],
    timeSlots := [c3Slot],
    ticketPrices := [] }

/-- Witness for C3 at a concrete input: with 45 of 50 spots consumed by a
sibling, reactivating a cancelled ten-person booking fails with the
slot-now-full message and the database is unchanged. -/
theorem pool_reactivate_capacity_witness :
    PoolController.updatePaymentStatus c3Db 1 "paid" =
      (⟨400, false, "Slot is now full. Only 5 spots available"⟩, c3Db) := by
  have h := (pool_reactivate_capacity c3Db 1 "paid" c3Cancelled c3Slot
    (by decide) (by decide) (Or.inl rfl) (by decide)).2 (by decide)
  rw [h]
  rfl

/-- C8: Deleting a pool booking, and changing the payment status of a
non-cancelled pool booking to cancelled, both set the associated slot counter
to max 0 (currentBookings - persons), so the counter never becomes negative
through these operations. -/
theorem pool_counter_floored :
    (∀ (db : PoolDb) (bookingId : Nat) (bk : Pool) (slot : TimeSlot),
      db.bookings.find? (fun b => b.id == bookingId) = some bk →
      db.timeSlots.find? (fun s => s.value == bk.timeSlot) = some slot →
      ∃ t2, (PoolController.deleteBooking db bookingId).2.timeSlots.find?
          (fun s => s.value == bk.timeSlot) = some t2 ∧
        t2.currentBookings = max 0 (slot.currentBookings - (bk.persons : Int)) ∧
        0 ≤ t2.currentBookings) ∧
    (∀ (db : PoolDb) (bookingId : Nat) (bk : Pool) (slot : TimeSlot),
      db.bookings.find? (fun b => b.id == bookingId) = some bk →
      bk.paymentStatus ≠ "cancelled" →
      db.timeSlots.find? (fun s => s.value == bk.timeSlot) = some slot →
      ∃ t2, (PoolController.updatePaymentStatus db bookingId "cancelled").2.timeSlots.find?
          (fun s => s.value == bk.timeSlot) = some t2 ∧
        t2.currentBookings = max 0 (slot.currentBookings - (bk.persons : Int)) ∧
        0 ≤ t2.currentBookings) := by
  constructor
  · intro db bookingId bk slot hbk hslot
    have hval : (slot.value == bk.timeSlot) = true := by
      simpa using List.find?_some hslot
    unfold PoolController.deleteBooking
    rw [hbk]
    simp only [hslot, Option.isSome_some, if_true]
    refine ⟨_, find?_updateFirstBy_self hslot ?_, rfl, le_max_left 0 _⟩
    simpa using hval
  · intro db bookingId bk slot hbk hnc hslot
    have hval : (slot.value == bk.timeSlot) = true := by
      simpa using List.find?_some hslot
    have hcond1 : (("cancelled" : String) == "cancelled" && bk.paymentStatus != "cancelled") = true := by
      simp [hnc]
    unfold PoolController.updatePaymentStatus
    rw [hbk]
    simp only [hcond1, Bool.not_false, if_true]
    simp only [hslot, Option.isSome_some, if_true]
    refine ⟨_, find?_updateFirstBy_self hslot ?_, rfl, le_max_left 0 _⟩
    simpa using hval

/-- Concrete slot whose counter has drifted to 3 for the C8 witness. -/
def c8Slot : TimeSlot :=
  { slotId := "4", label := "03:00 PM - 06:00 PM", value := "15:00-18:00",
    startTime := "15:00", endTime := "18:00",
    maxCapacity := 50, currentBookings := 3, isActive := true }

/-- Paid ten-person booking for the C8 witness. -/
def c8Booking : Pool :=
  { id := 1, customerName := "C", email := "c@x.com", phone := "1",
    date := 0, timeSlot := "15:00-18:00", passType := "daily", persons := 10,
    amount := 50, paymentStatus := "paid", notes := "",
    bookingNumber := "PB-3", createdBy := 1 }

/-- Pool database for the C8 witness. -/
def c8Db : PoolDb :=
  { bookings := [c8Booking], timeSlots := [c8Slot], ticketPrices := [] }

/-- Witness for C8 at a concrete input where the subtraction would go
negative (3 - 10): both delete and cancellation floor the counter at zero. -/
theorem pool_counter_floored_witness :
    (∃ t2, (PoolController.deleteBooking c8Db 1).2.timeSlots.find?
        (fun s => s.value == c8Booking.timeSlot) = some t2 ∧
      t2.currentBookings = max 0 (c8Slot.currentBookings - (c8Booking.persons : Int)) ∧
      0 ≤ t2.currentBookings) ∧
    (∃ t2, (PoolController.updatePaymentStatus c8Db 1 "cancelled").2.timeSlots.find?
        (fun s => s.value == c8Booking.timeSlot) = some t2 ∧
      t2.currentBookings = max 0 (c8Slot.currentBookings - (c8Booking.persons : Int)) ∧
      0 ≤ t2.currentBookings) :=
  ⟨pool_counter_floored.1 c8Db 1 c8Booking c8Slot (by decide) (by decide),
   pool_counter_floored.2 c8Db 1 c8Booking c8Slot (by decide) (by decide) (by decide)⟩

/-- Reservation that is confirmed but not checked in, with partial payment
(C2 counterexample fixture). -/
def c2Resv : Reservation :=
  { id := 1, guestName := "G", email := "g@x.com", phone := "1",
    checkIn := 0, checkOut := 86400000,
    actualCheckIn := none, actualCheckOut := none,
    roomType := "Deluxe", roomNumber := "101", adults := 2, children := 0,
    totalNights := 1, roomRate := 100, subTotal := 100, tax := 0,
    totalAmount := 100, paymentStatus := "partial",
    reservationStatus := "confirmed", specialRequests := "",
    reservationNumber := "HR-1", createdBy := 1 }

/-- Hotel database for the C2 counterexample. -/
def c2Db : HotelDb :=
  { reservations := [c2Resv],
    rooms := [{ roomNumber := "101", roomType := "Deluxe",
                status := "occupied", isActive := true }],
    roomTypes := [] }

/-- C2 counterexample: a check-out request on a reservation whose
paymentStatus is partial but whose reservationStatus is confirmed fails with
the only-checked-in-guests error, not the payment-pending error, because the
status guard runs before the payment guard. -/
theorem hotel_checkout_claim_counterexample :
    HotelController.checkOut c2Db 1 0 =
      (⟨400, false, "Only checked-in guests can check out"⟩, c2Db) ∧
    "Only checked-in guests can check out" ≠
      "Cannot check out with pending payment. Please update payment status to \"paid\" first." :=
  ⟨by decide, by decide⟩

/-- C2 (amended): A check-out request on a checked-in reservation whose
paymentStatus is pending or partial fails with the 400 payment-pending error
and leaves the database, hence the reservation and the room, unchanged. -/
theorem hotel_checkout_payment_guard (db : HotelDb) (reservationId : Nat)
    (now : Int) (r : Reservation)
    (hfind : db.reservations.find? (fun x => x.id == reservationId) = some r)
    (hstat : r.reservationStatus = "checked_in")
    (hpay : r.paymentStatus = "pending" ∨ r.paymentStatus = "partial") :
    HotelController.checkOut db reservationId now =
      (⟨400, false,
        "Cannot check out with pending payment. Please update payment status to \"paid\" first."⟩,
        db) := by
  have h1 : (r.reservationStatus != "checked_in") = false := by
    rw [hstat]; rfl
  have h2 : (r.paymentStatus == "pending" || r.paymentStatus == "partial") = true := by
    rcases hpay with h | h <;> rw [h] <;> rfl
  unfold HotelController.checkOut
  rw [hfind]
  simp only [h1, h2, Bool.false_eq_true, if_false, if_true]

/-- Checked-in reservation with partial payment for the C2 witness. -/
def c2bResv : Reservation :=
  { c2Resv with id := 2, reservationStatus := "checked_in" }

/-- Hotel database for the C2 witness. -/
def c2bDb : HotelDb :=
  { reservations := [c2bResv],
    rooms := [{ roomNumber := "101", roomType := "Deluxe",
                status := "occupied", isActive := true }],
    roomTypes := [] }

/-- Witness for the amended C2 at a concrete input: a checked-in reservation
with partial payment is rejected with the payment-pending message and the
database is unchanged. -/
theorem hotel_checkout_payment_guard_witness :
    HotelController.checkOut c2bDb 2 5 =
      (⟨400, false,
        "Cannot check out with pending payment. Please update payment status to \"paid\" first."⟩,
        c2bDb) :=
  hotel_checkout_payment_guard c2bDb 2 5 c2bResv (by decide) (by decide)
    (Or.inr rfl)

/-- Checked-out (terminal) reservation for the C5 counterexample. -/
def c5Resv : Reservation :=
  { id := 1, guestName := "H", email := "h@x.com", phone := "1",
    checkIn := 0, checkOut := 86400000,
    actualCheckIn := some 0, actualCheckOut := some 86400000,
    roomType := "Deluxe", roomNumber := "102", adults := 1, children := 0,
    totalNights := 1, roomRate := 100, subTotal := 100, tax := 0,
    totalAmount := 100, paymentStatus := "paid",
    reservationStatus := "checked_out", specialRequests := "",
    reservationNumber := "HR-2", createdBy := 1 }

/-- Hotel database for the C5 counterexample. -/
def c5hDb : HotelDb :=
  { reservations := [c5Resv],
    rooms := [{ roomNumber := "102", roomType := "Deluxe",
                status := "cleaning", isActive := true }],
    roomTypes := [] }

/-- Paid pool booking for the C5 counterexample. -/
def c5Booking : Pool :=
  { id := 1, customerName := "D", email := "d@x.com", phone := "1",
    date := 0, timeSlot := "18:00-21:00", passType := "daily", persons := 2,
    amount := 10, paymentStatus := "paid", notes := "",
    bookingNumber := "PB-4", createdBy := 1 }

/-- Pool database for the C5 counterexample. -/
def c5pDb : PoolDb :=
  { bookings := [c5Booking], timeSlots := [], ticketPrices := [] }

/-- C5 counterexample: the hotel delete endpoint deletes a checked-out
(terminal) reservation with a 200 response and the pool delete endpoint
deletes a paid booking with a 200 response; neither is rejected with 400 nor
kept stored, so the terminal-state delete guard does not hold for every
module. -/
theorem delete_terminal_claim_counterexample :
    (HotelController.deleteReservation c5hDb 1).1 =
      ⟨200, true, "Reservation deleted successfully"⟩ ∧
    (HotelController.deleteReservation c5hDb 1).2.reservations = [] ∧
    (PoolController.deleteBooking c5pDb 1).1 =
      ⟨200, true, "Booking deleted successfully"⟩ ∧
    (PoolController.deleteBooking c5pDb 1).2.bookings = [] := by
  refine ⟨by decide, by decide, by decide, by decide⟩

/-- C5 (amended): Only the conference delete endpoint guards terminal
states: a confirmed or completed conference booking is rejected with 400 and
the database is unchanged, while the hotel and pool delete endpoints delete
the addressed document regardless of its status (200 and the document is no
longer found). -/
theorem delete_terminal_guard :
    (∀ (db : ConferenceDb) (bookingId : Nat) (bk : Conference),
      db.bookings.find? (fun b => b.id == bookingId) = some bk →
      (bk.bookingStatus = "confirmed" ∨ bk.bookingStatus = "completed") →
      ConferenceController.deleteBooking db bookingId =
        (⟨400, false, "Cannot delete confirmed or completed bookings"⟩, db)) ∧
    (∀ (db : HotelDb) (reservationId : Nat) (r : Reservation),
      db.reservations.find? (fun x => x.id == reservationId) = some r →
      (db.reservations.filter (fun x => x.id == reservationId)).length ≤ 1 →
      (HotelController.deleteReservation db reservationId).1.status = 200 ∧
      (HotelController.deleteReservation db reservationId).2.reservations.find?
        (fun x => x.id == reservationId) = none) ∧
    (∀ (db : PoolDb) (bookingId : Nat) (bk : Pool),
      db.bookings.find? (fun b => b.id == bookingId) = some bk →
      (db.bookings.filter (fun b => b.id == bookingId)).length ≤ 1 →
      (PoolController.deleteBooking db bookingId).1.status = 200 ∧
      (PoolController.deleteBooking db bookingId).2.bookings.find?
        (fun b => b.id == bookingId) = none) := by
  refine ⟨?_, ?_, ?_⟩
  · intro db bookingId bk hfind hterm
    have hcond : (bk.bookingStatus == "confirmed" ||
        bk.bookingStatus == "completed") = true := by
      rcases hterm with h | h <;> rw [h] <;> rfl
    unfold ConferenceController.deleteBooking
    rw [hfind]
    simp only [hcond, if_true]
  · intro db reservationId r hfind hlen
    unfold HotelController.deleteReservation
    rw [hfind]
    exact ⟨rfl, find?_removeFirstBy_of_nodup hlen hfind⟩
  · intro db bookingId bk hfind hlen
    unfold PoolController.deleteBooking
    rw [hfind]
    exact ⟨rfl, find?_removeFirstBy_of_nodup hlen hfind⟩

/-- Confirmed conference booking for the C5 witness. -/
def c5Conf : Conference :=
  { id := 1, eventName := "Summit", clientName := "Acme", company := "Acme",
    email := "a@x.com", phone := "1", hallType := "hall_a",
    startDate := 0, endDate := 86400000, startTime := "09:00",
    endTime := "17:00", eventType := "conference", attendees := 30,
    amount := 500, advancePaid := 0, paymentStatus := "pending",
    bookingStatus := "confirmed", bookingNumber := "CH-1",
    invoiceNumber := "", notes := "", createdBy := 1,
    approvedBy := none, approvedAt := none }

/-- Conference database for the C5 witness. -/
def c5cDb : ConferenceDb := { bookings := [c5Conf], halls := [] }

/-- Witness for the amended C5 at concrete inputs: the confirmed conference
booking is rejected with 400 and kept, while the hotel and pool documents
are deleted with 200 responses. -/
theorem delete_terminal_guard_witness :
    ConferenceController.deleteBooking c5cDb 1 =
      (⟨400, false, "Cannot delete confirmed or completed bookings"⟩, c5cDb) ∧
    ((HotelController.deleteReservation c5hDb 1).1.status = 200 ∧
      (HotelController.deleteReservation c5hDb 1).2.reservations.find?
        (fun x => x.id == 1) = none) ∧
    ((PoolController.deleteBooking c5pDb 1).1.status = 200 ∧
      (PoolController.deleteBooking c5pDb 1).2.bookings.find?
        (fun b => b.id == 1) = none) :=
  ⟨delete_terminal_guard.1 c5cDb 1 c5Conf (by decide) (Or.inl rfl),
   delete_terminal_guard.2.1 c5hDb 1 c5Resv (by decide) (by decide),
   delete_terminal_guard.2.2 c5pDb 1 c5Booking (by decide) (by decide)⟩

theorem applyConferenceUpdates_id (b : Conference) (r : UpdateConferenceReq) :
    (applyConferenceUpdates b r).id = b.id := rfl

theorem applyConferenceUpdates_bookingStatus (b : Conference)
    (r : UpdateConferenceReq) :
    (applyConferenceUpdates b r).bookingStatus = b.bookingStatus := rfl

theorem applyConferenceUpdates_invoiceNumber (b : Conference)
    (r : UpdateConferenceReq) :
    (applyConferenceUpdates b r).invoiceNumber = b.invoiceNumber := rfl

theorem applyAdvancePaymentStatus_id (b : Conference) (o : Option Int) :
    (applyAdvancePaymentStatus b o).id = b.id := by
  cases o with
  | none => rfl
  | some v => unfold applyAdvancePaymentStatus; split_ifs <;> rfl

theorem applyAdvancePaymentStatus_bookingStatus (b : Conference) (o : Option Int) :
    (applyAdvancePaymentStatus b o).bookingStatus = b.bookingStatus := by
  cases o with
  | none => rfl
  | some v => unfold applyAdvancePaymentStatus; split_ifs <;> rfl

theorem applyAdvancePaymentStatus_invoiceNumber (b : Conference) (o : Option Int) :
    (applyAdvancePaymentStatus b o).invoiceNumber = b.invoiceNumber := by
  cases o with
  | none => rfl
  | some v => unfold applyAdvancePaymentStatus; split_ifs <;> rfl

theorem applyLazyInvoice_id (b : Conference) (a : Bool) (u : Nat) (n : Int)
    (f : String) : (applyLazyInvoice b a u n f).id = b.id := by
  unfold applyLazyInvoice; split_ifs <;> rfl

theorem applyLazyInvoice_bookingStatus (b : Conference) (a : Bool) (u : Nat)
    (n : Int) (f : String) :
    (applyLazyInvoice b a u n f).bookingStatus = b.bookingStatus := by
  unfold applyLazyInvoice; split_ifs <;> rfl

theorem applyLazyInvoice_invoiceNumber_of_ne (b : Conference) (a : Bool)
    (u : Nat) (n : Int) (f : String) (h : b.invoiceNumber ≠ "") :
    (applyLazyInvoice b a u n f).invoiceNumber = b.invoiceNumber := by
  have hc : (a && b.bookingStatus != "approved" && b.invoiceNumber == "") = false := by
    simp [h]
  unfold applyLazyInvoice
  rw [hc]
  simp

/-- Pending conference booking without invoice (C7 counterexample fixture). -/
def c7Pending : Conference :=
  { id := 1, eventName := "Gala", clientName := "Beta", company := "Beta",
    email := "b@x.com", phone := "2", hallType := "hall_b",
    startDate := 0, endDate := 86400000, startTime := "10:00",
    endTime := "16:00", eventType := "party", attendees := 20,
    amount := 300, advancePaid := 0, paymentStatus := "pending",
    bookingStatus := "pending", bookingNumber := "CH-2",
    invoiceNumber := "", notes := "", createdBy := 1,
    approvedBy := none, approvedAt := none }

/-- Conference database for the C7 counterexample. -/
def c7Db : ConferenceDb := { bookings := [c7Pending], halls := [] }

/-- Update request that only carries bookingStatus approved (C7
counterexample fixture). -/
def c7Req : UpdateConferenceReq :=
  { eventName := none, clientName := none, company := none, email := none,
    phone := none, hallType := none, startDate := none, endDate := none,
    startTime := none, endTime := none, eventType := none, attendees := none,
    amount := none, advancePaid := none, notes := none,
    bookingStatus := some ("approved") }

/-- C7 counterexample: the update endpoint generates an invoice number (and
approval metadata) for a pending booking from a request carrying
bookingStatus approved, while the stored bookingStatus remains pending
because bookingStatus is not an updatable field of updateBooking; so an
invoice is generated although the booking never reached approved status. -/
theorem conference_invoice_claim_counterexample :
    (ConferenceController.updateBooking c7Db 1 c7Req 7 0 "INV-CH-2026-1500").2.bookings.find?
        (fun b => b.id == 1) =
      some { c7Pending with
               invoiceNumber := "INV-CH-2026-1500"
               approvedAt := some 0
               approvedBy := some 7 } ∧
    ({ c7Pending with
         invoiceNumber := "INV-CH-2026-1500"
         approvedAt := some 0
         approvedBy := some 7 } : Conference).bookingStatus = "pending" := by
  refine ⟨by decide, rfl⟩

/-- C7 (amended): Via the status endpoint an invoice number is generated
exactly when a booking is approved while its invoiceNumber is empty, and a
nonempty invoiceNumber is never changed by any status update; the update
endpoint never changes the stored bookingStatus and never changes a nonempty
invoiceNumber, but (as the counterexample shows) it can generate the invoice
from a requested approval without the booking reaching approved status. -/
theorem conference_invoice_once :
    (∀ (db : ConferenceDb) (bookingId userId : Nat) (now : Int)
        (fresh : String) (bk : Conference),
      db.bookings.find? (fun b => b.id == bookingId) = some bk →
      bk.bookingStatus ≠ "approved" → bk.invoiceNumber = "" →
      db.bookings.filter (conferenceApproveOverlapFilter bookingId bk.hallType
        bk.startDate bk.endDate) = [] →
      ∃ b2, (ConferenceController.updateBookingStatus db bookingId "approved"
          userId now fresh).2.bookings.find? (fun b => b.id == bookingId) = some b2 ∧
        b2.invoiceNumber = fresh ∧ b2.bookingStatus = "approved") ∧
    (∀ (db : ConferenceDb) (bookingId userId : Nat) (st : String) (now : Int)
        (fresh : String) (bk : Conference),
      db.bookings.find? (fun b => b.id == bookingId) = some bk →
      bk.invoiceNumber ≠ "" →
      ∀ b2, (ConferenceController.updateBookingStatus db bookingId st
          userId now fresh).2.bookings.find? (fun b => b.id == bookingId) = some b2 →
        b2.invoiceNumber = bk.invoiceNumber) ∧
    (∀ (db : ConferenceDb) (bookingId userId : Nat) (req : UpdateConferenceReq)
        (now : Int) (fresh : String) (bk : Conference),
      db.bookings.find? (fun b => b.id == bookingId) = some bk →
      ∀ b2, (ConferenceController.updateBooking db bookingId req userId now
          fresh).2.bookings.find? (fun b => b.id == bookingId) = some b2 →
        b2.bookingStatus = bk.bookingStatus ∧
        (bk.invoiceNumber ≠ "" → b2.invoiceNumber = bk.invoiceNumber)) := by
  refine ⟨?_, ?_, ?_⟩
  · intro db bookingId userId now fresh bk hfind hna hinv hov
    have hid : (bk.id == bookingId) = true := by
      simpa using List.find?_some hfind
    have hcond : (bk.bookingStatus != "approved") = true := by simp [hna]
    unfold ConferenceController.updateBookingStatus
    rw [hfind]
    simp only [hcond, hov, Bool.and_true, Bool.and_self, if_true, if_false,
      List.isEmpty_nil, Bool.not_true, Bool.not_false, Bool.true_and,
      Bool.false_eq_true, Bool.true_eq_false]
    refine ⟨_, find?_updateFirstBy_self hfind ?_, ?_, ?_⟩
    · simpa using hid
    · simp [hinv]
    · rfl
  · intro db bookingId userId st now fresh bk hfind hinv b2 hb2
    have hid : (bk.id == bookingId) = true := by
      simpa using List.find?_some hfind
    have hinvb : (bk.invoiceNumber == "") = false := by simp [hinv]
    unfold ConferenceController.updateBookingStatus at hb2
    by_cases hv : (!(st == "pending" || st == "approved" || st == "confirmed" ||
        st == "completed" || st == "cancelled")) = true
    · rw [if_pos hv] at hb2
      rw [hfind] at hb2
      cases hb2
      rfl
    · rw [if_neg hv] at hb2
      rw [hfind] at hb2
      simp only at hb2
      by_cases hc : (st == "approved" && bk.bookingStatus != "approved") = true
      · rw [if_pos hc] at hb2
        by_cases hL : (List.filter (conferenceApproveOverlapFilter bookingId
            bk.hallType bk.startDate bk.endDate) db.bookings).isEmpty = true
        · simp only [hL, Bool.not_true, Bool.false_eq_true, if_false] at hb2
          rw [find?_updateFirstBy_self hfind
            (by by_cases hs : (st == "approved") = true <;> simp [hs, hid])] at hb2
          cases hb2
          by_cases hs : (st == "approved") = true <;> simp [hs, hinvb]
        · rw [Bool.not_eq_true] at hL
          simp only [hL, Bool.not_false, if_true] at hb2
          rw [hfind] at hb2
          cases hb2
          rfl
      · rw [if_neg hc] at hb2
        simp only [List.isEmpty_nil, Bool.not_true, Bool.false_eq_true,
          if_false] at hb2
        rw [find?_updateFirstBy_self hfind
          (by by_cases hs : (st == "approved") = true <;> simp [hs, hid])] at hb2
        cases hb2
        by_cases hs : (st == "approved") = true <;> simp [hs, hinvb]
  · intro db bookingId userId req now fresh bk hfind b2 hb2
    have hid : (bk.id == bookingId) = true := by
      simpa using List.find?_some hfind
    unfold ConferenceController.updateBooking at hb2
    rw [hfind] at hb2
    simp only at hb2
    have hinner : (applyAdvancePaymentStatus (applyConferenceUpdates bk req)
        req.advancePaid).invoiceNumber = bk.invoiceNumber := by
      rw [applyAdvancePaymentStatus_invoiceNumber, applyConferenceUpdates_invoiceNumber]
    have hp : ((applyLazyInvoice (applyAdvancePaymentStatus
        (applyConferenceUpdates bk req) req.advancePaid)
        (requestedApproved req.bookingStatus) userId now fresh).id == bookingId) = true := by
      rw [applyLazyInvoice_id, applyAdvancePaymentStatus_id, applyConferenceUpdates_id]
      exact hid
    rw [find?_updateFirstBy_self hfind hp] at hb2
    cases hb2
    constructor
    · rw [applyLazyInvoice_bookingStatus, applyAdvancePaymentStatus_bookingStatus,
        applyConferenceUpdates_bookingStatus]
    · intro hne
      rw [applyLazyInvoice_invoiceNumber_of_ne _ _ _ _ _ (by rw [hinner]; exact hne),
        hinner]

/-- Approved conference booking holding invoice INV-0 (C7 witness fixture). -/
def c7Approved : Conference :=
  { c7Pending with id := 2, bookingStatus := "approved", invoiceNumber := "INV-0" }

/-- Conference database for the C7 witness. -/
def c7bDb : ConferenceDb := { bookings := [c7Approved], halls := [] }

/-- The C7 witness booking after the completed-status update. -/
def c7bAfter : Conference := { c7Approved with bookingStatus := "completed" }

/-- Update request carrying only a new amount (C7 witness fixture). -/
def c7cReq : UpdateConferenceReq :=
  { eventName := none, clientName := none, company := none, email := none,
    phone := none, hallType := none, startDate := none, endDate := none,
    startTime := none, endTime := none, eventType := none, attendees := none,
    amount := some 400, advancePaid := none, notes := none,
    bookingStatus := none }

/-- The C7 witness booking after the amount-only update. -/
def c7cAfter : Conference := { c7Approved with amount := 400 }

/-- Witness for the amended C7 at concrete inputs: first approval of a
pending booking generates the fresh invoice; a later status update of an
approved booking keeps its invoice; an amount-only update keeps both the
booking status and the invoice. -/
theorem conference_invoice_once_witness :
    (∃ b2, (ConferenceController.updateBookingStatus c7Db 1 "approved" 9 0
        "INV-A").2.bookings.find? (fun b => b.id == 1) = some b2 ∧
      b2.invoiceNumber = "INV-A" ∧ b2.bookingStatus = "approved") ∧
    c7bAfter.invoiceNumber = c7Approved.invoiceNumber ∧
    (c7cAfter.bookingStatus = c7Approved.bookingStatus ∧
      (c7Approved.invoiceNumber ≠ "" →
        c7cAfter.invoiceNumber = c7Approved.invoiceNumber)) :=
  ⟨conference_invoice_once.1 c7Db 1 9 0 "INV-A" c7Pending (by decide)
      (by decide) rfl (by decide),
   conference_invoice_once.2.1 c7bDb 2 9 "completed" 0 "INV-F" c7Approved
      (by decide) (by decide) c7bAfter (by decide),
   conference_invoice_once.2.2 c7bDb 2 9 c7cReq 0 "INV-G" c7Approved
      (by decide) c7cAfter (by decide)⟩

/-- Modelled from the spec: two time windows intersect under half-open
interval semantics, existing.start strictly before requested.end and
existing.end strictly after requested.start. -/
def specHalfOpenOverlap (existingStart existingEnd reqStart reqEnd : Int) : Bool :=
  existingStart < reqEnd && existingEnd > reqStart

/-- Closed-interval variant of the overlap predicate: touching windows are
treated as intersecting. -/
def specClosedOverlap (existingStart existingEnd reqStart reqEnd : Int) : Bool :=
  existingStart ≤ reqEnd && existingEnd ≥ reqStart

/-- Conference hall fixture for the C4 counterexample. -/
def c4Hall : ConferenceHall :=
  { name := "Hall A", value := "hall_a", capacity := 100, dailyRate := 500,
    isActive := true }

/-- Approved booking occupying day 0 (up to instant 86400000) on hall A
(C4 counterexample fixture). -/
def c4Existing : Conference :=
  { id := 1, eventName := "Expo", clientName := "Gamma", company := "",
    email := "g@x.com", phone := "3", hallType := "hall_a",
    startDate := 0, endDate := 86400000, startTime := "09:00",
    endTime := "17:00", eventType := "exhibition", attendees := 40,
    amount := 500, advancePaid := 0, paymentStatus := "pending",
    bookingStatus := "approved", bookingNumber := "CH-3",
    invoiceNumber := "INV-1", notes := "", createdBy := 1,
    approvedBy := some 1, approvedAt := some 0 }

/-- Conference database for the C4 counterexample. -/
def c4Db : ConferenceDb := { bookings := [c4Existing], halls := [c4Hall] }

/-- Creation request whose window starts exactly where the existing booking
ends (C4 counterexample fixture). -/
def c4Req : CreateConferenceReq :=
  { eventName := "Fair", clientName := "Delta", company := "",
    email := "d@x.com", phone := "4", hallType := "hall_a",
    startDate := 86400000, endDate := 172800000, startTime := "09:00",
    endTime := "17:00", eventType := "exhibition", attendees := 10,
    amount := 500, advancePaid := 0, bookingStatus := none, notes := "" }

/-- C4 counterexample: a conference creation request whose start equals an
existing active booking's end is rejected as overlapping, although under the
half-open semantics stated by the claim the two windows do not intersect; so
the conference creation check is not half-open. -/
theorem conference_overlap_claim_counterexample :
    ConferenceController.createBooking c4Db c4Req 1 2 "CH-9" "" 0 =
      (⟨400, false, "Hall is already booked for selected dates"⟩, c4Db) ∧
    specHalfOpenOverlap c4Existing.startDate c4Existing.endDate
      c4Req.startDate c4Req.endDate = false :=
  ⟨by decide, by decide⟩

/-- C4 (amended): The hotel creation check treats windows as intersecting
exactly under half-open semantics (checkIn LT requested checkOut and
checkOut GT requested checkIn), while the conference creation check uses
closed-interval semantics (startDate LE requested end and endDate GE
requested start), so touching conference windows do conflict; the two
semantics differ exactly at touching windows. -/
theorem create_overlap_semantics :
    (∀ (r : Reservation) (roomNumber : String) (ci co : Int),
      hotelOverlapFilter roomNumber ci co r =
        (r.roomNumber == roomNumber &&
         specHalfOpenOverlap r.checkIn r.checkOut ci co &&
         (r.reservationStatus == "confirmed" ||
          r.reservationStatus == "checked_in"))) ∧
    (∀ (b : Conference) (hallType : String) (s e : Int),
      conferenceCreateOverlapFilter hallType s e b =
        (b.hallType == hallType &&
         specClosedOverlap b.startDate b.endDate s e &&
         conferenceActiveForCreate b.bookingStatus)) ∧
    (specClosedOverlap 0 86400000 86400000 172800000 = true ∧
     specHalfOpenOverlap 0 86400000 86400000 172800000 = false) := by
  refine ⟨?_, ?_, by decide, by decide⟩
  · intro r roomNumber ci co
    simp [hotelOverlapFilter, specHalfOpenOverlap, Bool.and_assoc]
  · intro b hallType s e
    simp [conferenceCreateOverlapFilter, specClosedOverlap, Bool.and_assoc]

end LiberiaBooking
